import Mathlib

/-!
Verification development for the Service Desk integration of mcp-atlassian.

The development shallowly embeds the two source files
`src/mcp_atlassian/servicedesk/__init__.py` (the `ServiceDeskFetcher`
HTTP-client wrapper) and `src/mcp_atlassian/servers/servicedesk.py`
(the tool handlers).  Python dictionaries produced by `json.loads` are
modelled as insertion-ordered association lists with last-write-wins
updates; the handlers are modelled as pure functions from their inputs
and a deterministic remote (a function from the outbound HTTP request
to the HTTP response) to the pair of the returned string and the list
of outbound HTTP requests actually issued.
-/

/-- JSON values as produced by Python `json.loads` on the fragment this
code exercises (no floating point or exponent literals; integers only).
Objects are insertion-ordered association lists, as Python dicts are. -/
inductive Json where
  | null
  | bool (b : Bool)
  | num (n : Int)
  | str (s : String)
  | arr (elems : List Json)
  | obj (fields : List (String × Json))

/-- Python dict assignment `d[k] = v`: replace the value at an existing
key in place (keeping its position), otherwise append the binding. -/
def upsert : List (String × Json) → String → Json → List (String × Json)
  | [], k, v => [(k, v)]
  | (k0, v0) :: rest, k, v =>
    if k0 = k then (k0, v) :: rest else (k0, v0) :: upsert rest k v

/-- Python `dict.update`: fold assignment over the pairs of the update
map, so a colliding key overwrites (last write wins). -/
def pyDictUpdate : List (String × Json) → List (String × Json) → List (String × Json)
  | d, [] => d
  | d, (k, v) :: rest => pyDictUpdate (upsert d k v) rest

/-- First binding for a key in an association list (Python dict lookup on
the dup-free lists this development builds). -/
def lookupField : List (String × Json) → String → Option Json
  | [], _ => none
  | (k, v) :: rest, q => if k = q then some v else lookupField rest q

/-- Last binding for a key in an association list; the value that wins a
last-write-wins update. -/
def lookupLast : List (String × Json) → String → Option Json
  | [], _ => none
  | (k, v) :: rest, q =>
    match lookupLast rest q with
    | some w => some w
    | none => if k = q then some v else none

/-- JSON whitespace characters accepted between tokens. -/
def jsonIsWs (c : Char) : Bool :=
  c = ' ' || c = '\t' || c = '\n' || c = '\r'

/-- Drop leading JSON whitespace. -/
def skipWs (cs : List Char) : List Char := cs.dropWhile jsonIsWs

/-- Value of a hexadecimal digit, if any. -/
def hexVal (c : Char) : Option Nat :=
  if '0' ≤ c ∧ c ≤ '9' then some (c.toNat - 48)
  else if 'a' ≤ c ∧ c ≤ 'f' then some (c.toNat - 87)
  else if 'A' ≤ c ∧ c ≤ 'F' then some (c.toNat - 55)
  else none

/-- Strip an expected literal (the tail of `null`, `true`, `false`). -/
def stripLit : List Char → List Char → Option (List Char)
  | [], cs => some cs
  | l :: ls, c :: cs => if c = l then stripLit ls cs else none
  | _ :: _, [] => none

/-- Split off the longest prefix of decimal digits. -/
def takeDigits : List Char → List Char × List Char
  | [] => ([], [])
  | c :: cs =>
    if c.isDigit then
      let p := takeDigits cs
      (c :: p.1, p.2)
    else ([], c :: cs)

/-- Decimal value of a digit list. -/
def digitsToNat (ds : List Char) : Nat :=
  ds.foldl (fun a c => a * 10 + (c.toNat - 48)) 0

/-- Body of a JSON string literal, after the opening quote: returns the
decoded string and the input remaining after the closing quote. -/
def parseStringBody : Nat → List Char → String → Except String (String × List Char)
  | 0, _, _ => .error "Unterminated string"
  | _ + 1, [], _ => .error "Unterminated string"
  | fuel + 1, c :: cs, acc =>
    if c = '"' then .ok (acc, cs)
    else if c = '\\' then
      match cs with
      | [] => .error "Unterminated string"
      | e :: cs2 =>
        if e = '"' then parseStringBody fuel cs2 (acc.push '"')
        else if e = '\\' then parseStringBody fuel cs2 (acc.push '\\')
        else if e = '/' then parseStringBody fuel cs2 (acc.push '/')
        else if e = 'b' then parseStringBody fuel cs2 (acc.push '\x08')
        else if e = 'f' then parseStringBody fuel cs2 (acc.push '\x0c')
        else if e = 'n' then parseStringBody fuel cs2 (acc.push '\n')
        else if e = 'r' then parseStringBody fuel cs2 (acc.push '\r')
        else if e = 't' then parseStringBody fuel cs2 (acc.push '\t')
        else if e = 'u' then
          match cs2 with
          | h1 :: h2 :: h3 :: h4 :: cs3 =>
            match hexVal h1, hexVal h2, hexVal h3, hexVal h4 with
            | some a, some b, some c3, some d =>
              parseStringBody fuel cs3 (acc.push (Char.ofNat (((a * 16 + b) * 16 + c3) * 16 + d)))
            | _, _, _, _ => .error "Invalid hex escape"
          | _ => .error "Invalid hex escape"
        else .error "Invalid escape"
    else parseStringBody fuel cs (acc.push c)

mutual

/-- Recursive-descent JSON value parser, modelling Python `json.loads`
on the fragment without floats; the fuel argument bounds recursion and
is instantiated large enough at the top entry `jsonLoads`. -/
def parseValue : Nat → List Char → Except String (Json × List Char)
  | 0, _ => .error "Recursion limit exceeded"
  | fuel + 1, cs0 =>
    match skipWs cs0 with
    | [] => .error "Expecting value"
    | c :: cs =>
      if c = '"' then
        match parseStringBody (cs.length + 1) cs "" with
        | .ok (s, rest) => .ok (.str s, rest)
        | .error m => .error m
      else if c = '\x7b' then
        match skipWs cs with
        | '\x7d' :: rest => .ok (.obj [], rest)
        | rest => parseMembers fuel rest []
      else if c = '[' then
        match skipWs cs with
        | ']' :: rest => .ok (.arr [], rest)
        | rest => parseElems fuel rest []
      else if c = 'n' then
        match stripLit ['u', 'l', 'l'] cs with
        | some rest => .ok (.null, rest)
        | none => .error "Expecting value"
      else if c = 't' then
        match stripLit ['r', 'u', 'e'] cs with
        | some rest => .ok (.bool true, rest)
        | none => .error "Expecting value"
      else if c = 'f' then
        match stripLit ['a', 'l', 's', 'e'] cs with
        | some rest => .ok (.bool false, rest)
        | none => .error "Expecting value"
      else if c = '-' then
        match cs with
        | d :: _ =>
          if d.isDigit then
            let p := takeDigits cs
            .ok (.num (-(Int.ofNat (digitsToNat p.1))), p.2)
          else .error "Expecting value"
        | [] => .error "Expecting value"
      else if c.isDigit then
        let p := takeDigits (c :: cs)
        .ok (.num (Int.ofNat (digitsToNat p.1)), p.2)
      else .error "Expecting value"

/-- Members of a JSON object, positioned at a key (whitespace skipped). -/
def parseMembers : Nat → List Char → List (String × Json) → Except String (Json × List Char)
  | 0, _, _ => .error "Recursion limit exceeded"
  | fuel + 1, cs, acc =>
    match cs with
    | '"' :: rest =>
      match parseStringBody (rest.length + 1) rest "" with
      | .error m => .error m
      | .ok (key, rest1) =>
        match skipWs rest1 with
        | ':' :: rest2 =>
          match parseValue fuel rest2 with
          | .error m => .error m
          | .ok (v, rest3) =>
            match skipWs rest3 with
            | '\x7d' :: r => .ok (.obj (upsert acc key v), r)
            | ',' :: r => parseMembers fuel (skipWs r) (upsert acc key v)
            | _ => .error "Expecting comma delimiter"
        | _ => .error "Expecting colon delimiter"
    | _ => .error "Expecting property name enclosed in double quotes"

/-- Elements of a JSON array, positioned at a value. -/
def parseElems : Nat → List Char → List Json → Except String (Json × List Char)
  | 0, _, _ => .error "Recursion limit exceeded"
  | fuel + 1, cs, acc =>
    match parseValue fuel cs with
    | .error m => .error m
    | .ok (v, rest) =>
      match skipWs rest with
      | ']' :: r => .ok (.arr (acc ++ [v]), r)
      | ',' :: r => parseElems fuel r (acc ++ [v])
      | _ => .error "Expecting comma delimiter"

end

/-- Python `json.loads`: parse a complete JSON document and reject
trailing input. -/
def jsonLoads (s : String) : Except String Json :=
  match parseValue (s.length + 2) s.data with
  | .error m => .error m
  | .ok (j, rest) =>
    match skipWs rest with
    | [] => .ok j
    | _ :: _ => .error "Extra data"

/-- Lowercase hexadecimal digit. -/
def hexDigitChar (n : Nat) : Char :=
  if n < 10 then Char.ofNat (48 + n) else Char.ofNat (87 + n)

/-- Four-digit lowercase hex rendering for escape sequences. -/
def hex4 (n : Nat) : String :=
  String.mk [hexDigitChar (n / 4096 % 16), hexDigitChar (n / 256 % 16),
    hexDigitChar (n / 16 % 16), hexDigitChar (n % 16)]

/-- Escape of one character inside a JSON string literal, following
Python `json.dumps` with its default `ensure_ascii=True` (characters
outside the printable ASCII range become hex escapes). -/
def escJsonChar (c : Char) : String :=
  if c = '"' then "\\\""
  else if c = '\\' then "\\\\"
  else if c = '\n' then "\\n"
  else if c = '\t' then "\\t"
  else if c = '\r' then "\\r"
  else if c = '\x08' then "\\b"
  else if c = '\x0c' then "\\f"
  else if c.toNat < 32 ∨ c.toNat > 126 then "\\u" ++ hex4 c.toNat
  else String.singleton c

/-- JSON string literal rendering with quotes. -/
def quoteJsonStr (s : String) : String :=
  "\"" ++ String.join (s.data.map escJsonChar) ++ "\""

/-- Indentation for a nesting level at `indent=2`. -/
def indentStr : Nat → String
  | 0 => ""
  | n + 1 => indentStr n ++ "  "

mutual

/-- Rendering of a JSON value at a nesting level, following Python
`json.dumps(x, indent=2)`: containers break onto new lines, items are
separated by a comma and newline, keys by a colon and space. -/
def dumpVal : Nat → Json → String
  | _, .null => "null"
  | _, .bool true => "true"
  | _, .bool false => "false"
  | _, .num n => toString n
  | _, .str s => quoteJsonStr s
  | _, .arr [] => "[]"
  | lvl, .arr (x :: xs) =>
    "[\n" ++ dumpItems (lvl + 1) (x :: xs) ++ "\n" ++ indentStr lvl ++ "]"
  | _, .obj [] => "\x7b\x7d"
  | lvl, .obj (p :: ps) =>
    "\x7b\n" ++ dumpFields (lvl + 1) (p :: ps) ++ "\n" ++ indentStr lvl ++ "\x7d"
termination_by _ j => sizeOf j

/-- Rendering of the comma-separated items of a nonempty array. -/
def dumpItems : Nat → List Json → String
  | _, [] => ""
  | lvl, [x] => indentStr lvl ++ dumpVal lvl x
  | lvl, x :: y :: ys =>
    indentStr lvl ++ dumpVal lvl x ++ ",\n" ++ dumpItems lvl (y :: ys)
termination_by _ xs => sizeOf xs

/-- Rendering of the comma-separated members of a nonempty object. -/
def dumpFields : Nat → List (String × Json) → String
  | _, [] => ""
  | lvl, [(k, v)] => indentStr lvl ++ quoteJsonStr k ++ ": " ++ dumpVal lvl v
  | lvl, (k, v) :: q :: qs =>
    indentStr lvl ++ quoteJsonStr k ++ ": " ++ dumpVal lvl v ++ ",\n" ++ dumpFields lvl (q :: qs)
termination_by _ ps => sizeOf ps

end

/-- Python `json.dumps(x, indent=2)` as used by every handler. -/
def dumps2 (j : Json) : String := dumpVal 0 j

example : jsonLoads "\x7b\"a\": 1\x7d" = .ok (.obj [("a", .num 1)]) := by rfl

example : dumps2 (.obj [("a", .num 1)]) = "\x7b\n  \"a\": 1\n\x7d" := by
  simp only [dumps2, dumpVal, dumpFields, quoteJsonStr, escJsonChar, indentStr]
  rfl

example : jsonLoads "" = .error "Expecting value" := by rfl

example : jsonLoads "not json" = .error "Expecting value" := by rfl

/-- A Python value that is either `None` or a `str` (`none` models
Python `None`). -/
abbrev PyStrV := Option String

/-- Python truthiness of a `None`-or-`str` value: `None` and the empty
string are falsy. -/
def pyTruthy : PyStrV → Bool
  | none => false
  | some s => !s.isEmpty

/-- The string a `None`-or-`str` value interpolates to in an f-string. -/
def pyStrVal : PyStrV → String
  | none => "None"
  | some s => s

/-- ASCII whitespace stripped by Python `str.strip()`. -/
def pyIsSpace (c : Char) : Bool :=
  c = ' ' || c = '\t' || c = '\n' || c = '\r' || c = '\x0b' || c = '\x0c'

/-- Python `str.strip()` on ASCII whitespace. -/
def pyStrip (s : String) : String :=
  String.mk (((s.data.dropWhile pyIsSpace).reverse.dropWhile pyIsSpace).reverse)

/-- Python `str.rstrip(c)` for the slash, as `jira_config.url.rstrip` uses. -/
def rstripSlash (s : String) : String :=
  String.mk ((s.data.reverse.dropWhile (fun c => c = '/')).reverse)

/-- An id value arriving from upstream either as a `str` or as an `int`;
`create_customer_request` coerces both with Python `str()`. -/
inductive PyIdVal where
  | ofStr (s : String)
  | ofInt (n : Int)

/-- Python `str()` of an id value. -/
def PyIdVal.pystr : PyIdVal → String
  | .ofStr s => s
  | .ofInt n => toString n

/-- The part of a `requests` HTTP response the embedded code reads:
numeric status, reason phrase, and raw body text. -/
structure HttpResponse where
  status_code : Nat
  reason : String
  text : String

/-- The Python exceptions the embedded code raises or catches.  An
`httpError` carries the message produced by `raise_for_status` and the
response object that `requests` attaches to the exception. -/
inductive PyExc where
  | httpError (msg : String) (response : Option HttpResponse)
  | jsonDecodeError (msg : String)
  | attributeError (msg : String)
  | valueError (msg : String)
  | typeError (msg : String)

/-- Python `str()` of an exception, as interpolated by the handlers
into their `Error: ...` strings. -/
def PyExc.pystr : PyExc → String
  | .httpError m _ => m
  | .jsonDecodeError m => m
  | .attributeError m => m
  | .valueError m => m
  | .typeError m => m

/-- The `ValueError` raised by `ServiceDeskFetcher.__init__` when the
configuration exposes no authentication attributes; the design calls
this error kind ConfigurationError. -/
def configurationError : PyExc :=
  .valueError "No valid authentication method found in Jira config"

/-- The Jira configuration object as probed by `ServiceDeskFetcher`:
`hasattr` probing is modelled by an outer `Option` (attribute present or
absent) around the Python value, which may itself be `None`. -/
structure JiraConfig where
  url : String
  username : Option PyStrV
  api_token : Option PyStrV
  personal_token : Option PyStrV
  default_service_desk_id : PyStrV

/-- The authentication object: the code only ever constructs
`HTTPBasicAuth`, with either the (username, api_token) pair or the
empty-username/personal_token pair. -/
inductive Auth where
  | basic (username password : PyStrV)

/-- State of a constructed `ServiceDeskFetcher`: normalized base URL and
the selected authentication. -/
structure ServiceDeskFetcher where
  base_url : String
  auth : Auth

/-- The fixed request headers set by `ServiceDeskFetcher.__init__`. -/
def sdHeaders : List (String × String) :=
  [("Accept", "application/json"), ("Content-Type", "application/json")]

/-- Embeds `ServiceDeskFetcher.__init__` (servicedesk/__init__.py:15-31):
strip the trailing slash from the url, then select auth by `hasattr`
probing — the (username, api_token) pair first, else `personal_token`
with an empty username, else raise `ValueError`. -/
def ServiceDeskFetcher.init (cfg : JiraConfig) : Except PyExc ServiceDeskFetcher :=
  match cfg.username, cfg.api_token with
  | some u, some t => .ok ⟨rstripSlash cfg.url, .basic u t⟩
  | _, _ =>
    match cfg.personal_token with
    | some p => .ok ⟨rstripSlash cfg.url, .basic (some "") p⟩
    | none => .error configurationError

/-- An outbound HTTP request as issued by the client: method, full URL,
query parameters, optional JSON body, auth and headers. -/
structure HttpRequest where
  method : String
  url : String
  params : List (String × Int)
  body : Option Json
  auth : Auth
  headers : List (String × String)

/-- A deterministic remote: the response the environment returns for an
outbound request.  Each handler issues at most one request. -/
abbrev Remote := HttpRequest → HttpResponse

/-- Request construction of `ServiceDeskFetcher._make_request`
(servicedesk/__init__.py:33-49): the URL is
`base_url ++ "/rest/servicedeskapi/" ++ endpoint` with the selected auth
and fixed headers. -/
def ServiceDeskFetcher.sdRequest (f : ServiceDeskFetcher) (method endpoint : String)
    (params : List (String × Int)) (body : Option Json) : HttpRequest :=
  ⟨method, f.base_url ++ "/rest/servicedeskapi/" ++ endpoint, params, body, f.auth, sdHeaders⟩

/-- The message of the `HTTPError` raised by
`requests.Response.raise_for_status` for a 4xx or 5xx status. -/
def raiseForStatusMsg (r : HttpResponse) (url : String) : String :=
  if r.status_code < 500 then
    toString r.status_code ++ " Client Error: " ++ r.reason ++ " for url: " ++ url
  else
    toString r.status_code ++ " Server Error: " ++ r.reason ++ " for url: " ++ url

/-- Outcome of `_make_request` once the response is in
(servicedesk/__init__.py:64-71): `raise_for_status` raises an
`HTTPError` carrying the response for any 4xx/5xx status (re-raised
unchanged by the except clause), otherwise `response.json()` parses the
body, raising a decode error on non-JSON bodies. -/
def makeRequestResult (req : HttpRequest) (resp : HttpResponse) : Except PyExc Json :=
  if 400 ≤ resp.status_code ∧ resp.status_code < 600 then
    .error (.httpError (raiseForStatusMsg resp req.url) (some resp))
  else
    match jsonLoads resp.text with
    | .ok j => .ok j
    | .error m => .error (.jsonDecodeError m)

/-- Python `d.get(key, default)` on a parsed JSON value: succeeds on a
dict, raises `AttributeError` on any other value (which has no `get`). -/
def Json.pyGet (j : Json) (key : String) (dflt : Json) : Except PyExc Json :=
  match j with
  | .obj fs => .ok ((lookupField fs key).getD dflt)
  | _ => .error (.attributeError "object has no attribute get")

/-- Request of `ServiceDeskFetcher.get_request_types`
(servicedesk/__init__.py:77-79). -/
def ServiceDeskFetcher.get_request_types_req (f : ServiceDeskFetcher) (sdid : String) : HttpRequest :=
  f.sdRequest "GET" ("servicedesk/" ++ sdid ++ "/requesttype") [] none

/-- Result of `ServiceDeskFetcher.get_request_types`: the response dict
unwrapped with `.get('values', [])`. -/
def ServiceDeskFetcher.get_request_types_res (req : HttpRequest) (resp : HttpResponse) :
    Except PyExc Json :=
  match makeRequestResult req resp with
  | .error e => .error e
  | .ok j => j.pyGet "values" (.arr [])

/-- Request of `ServiceDeskFetcher.get_organisations`
(servicedesk/__init__.py:81-83); note the British spelling of the
method name in the source. -/
def ServiceDeskFetcher.get_organisations_req (f : ServiceDeskFetcher) (sdid : String) : HttpRequest :=
  f.sdRequest "GET" ("servicedesk/" ++ sdid ++ "/organization") [] none

/-- Result of `ServiceDeskFetcher.get_organisations`: the response dict
unwrapped with `.get('values', [])`. -/
def ServiceDeskFetcher.get_organisations_res (req : HttpRequest) (resp : HttpResponse) :
    Except PyExc Json :=
  match makeRequestResult req resp with
  | .error e => .error e
  | .ok j => j.pyGet "values" (.arr [])

/-- Request of `ServiceDeskFetcher.get_organization_users`
(servicedesk/__init__.py:85-101): a GET with query params
start and limit; the result is `_make_request` unchanged. -/
def ServiceDeskFetcher.get_organization_users_req (f : ServiceDeskFetcher)
    (organization_id : String) (start limit : Int) : HttpRequest :=
  f.sdRequest "GET" ("organization/" ++ organization_id ++ "/user")
    [("start", start), ("limit", limit)] none

/-- The declared default of the `start` parameter of
`get_organization_users` and of its handler. -/
def organization_users_default_start : Int := 0

/-- The declared default of the `limit` parameter of
`get_organization_users` and of its handler. -/
def organization_users_default_limit : Int := 50

/-- Request of `ServiceDeskFetcher.add_users_to_organization`
(servicedesk/__init__.py:103-119): a POST with body
`usernames: [...]`; the result is `_make_request` unchanged. -/
def ServiceDeskFetcher.add_users_to_organization_req (f : ServiceDeskFetcher)
    (organization_id : String) (usernames : List String) : HttpRequest :=
  f.sdRequest "POST" ("organization/" ++ organization_id ++ "/user") []
    (some (.obj [("usernames", .arr (usernames.map Json.str))]))

/-- Request of `ServiceDeskFetcher.get_request_type_fields`
(servicedesk/__init__.py:121-123). -/
def ServiceDeskFetcher.get_request_type_fields_req (f : ServiceDeskFetcher)
    (sdid rtid : String) : HttpRequest :=
  f.sdRequest "GET" ("servicedesk/" ++ sdid ++ "/requesttype/" ++ rtid ++ "/field") [] none

/-- Result of `ServiceDeskFetcher.get_request_type_fields`: the response
dict unwrapped with `.get('requestTypeFields', [])`. -/
def ServiceDeskFetcher.get_request_type_fields_res (req : HttpRequest) (resp : HttpResponse) :
    Except PyExc Json :=
  match makeRequestResult req resp with
  | .error e => .error e
  | .ok j => j.pyGet "requestTypeFields" (.arr [])

/-- Outbound body built by `ServiceDeskFetcher.create_customer_request`
(servicedesk/__init__.py:125-152): `serviceDeskId` and `requestTypeId`
coerced with `str()`, and `requestFieldValues` the summary/description
mapping updated (Python `dict.update`) with the caller-supplied field
values when provided. -/
def create_customer_request_body (service_desk_id request_type_id : PyIdVal)
    (summary description : String) (request_field_values : Option (List (String × Json))) : Json :=
  .obj [("serviceDeskId", .str service_desk_id.pystr),
        ("requestTypeId", .str request_type_id.pystr),
        ("requestFieldValues", .obj
          (match request_field_values with
           | some kvs => pyDictUpdate
               [("summary", .str summary), ("description", .str description)] kvs
           | none => [("summary", .str summary), ("description", .str description)]))]

/-- Request of `ServiceDeskFetcher.create_customer_request`: a POST to
the `request` endpoint carrying the body above; the result is
`_make_request` unchanged. -/
def ServiceDeskFetcher.create_customer_request_req (f : ServiceDeskFetcher)
    (service_desk_id request_type_id : PyIdVal) (summary description : String)
    (request_field_values : Option (List (String × Json))) : HttpRequest :=
  f.sdRequest "POST" "request" []
    (some (create_customer_request_body service_desk_id request_type_id
      summary description request_field_values))

/-- Request of `ServiceDeskFetcher.update_request`
(servicedesk/__init__.py:154-167): a PUT on the Jira v3 issue endpoint
(not the servicedeskapi prefix) with body `fields: {...}`. -/
def ServiceDeskFetcher.update_request_req (f : ServiceDeskFetcher) (issue_key : String)
    (fields : List (String × Json)) : HttpRequest :=
  ⟨"PUT", f.base_url ++ "/rest/api/3/issue/" ++ issue_key, [],
    some (.obj [("fields", .obj fields)]), f.auth, sdHeaders⟩

/-- Result of `ServiceDeskFetcher.update_request`
(servicedesk/__init__.py:169-173): `raise_for_status`, then the
synthetic acknowledgment `status: "updated"` regardless of the (empty)
response body. -/
def ServiceDeskFetcher.update_request_res (req : HttpRequest) (resp : HttpResponse) :
    Except PyExc Json :=
  if 400 ≤ resp.status_code ∧ resp.status_code < 600 then
    .error (.httpError (raiseForStatusMsg resp req.url) (some resp))
  else
    .ok (.obj [("status", .str "updated")])

/-- The error string returned by every Service-Desk-scoped handler when
neither an explicit service_desk_id nor the configured default exists. -/
def errNoServiceDesk : String :=
  "Error: No service_desk_id provided and JIRA_DEFAULT_SERVICE_DESK_ID not set"

/-- Resolution of an optional service_desk_id argument against the
configured default, shared verbatim by four handlers
(servers/servicedesk.py:46-50, 69-73, 156-160, 195-199): a falsy
argument falls back to `jira.config.default_service_desk_id`. -/
def resolveServiceDeskId (cfg : JiraConfig) (service_desk_id : PyStrV) : PyStrV :=
  if pyTruthy service_desk_id then service_desk_id else cfg.default_service_desk_id

/-- Error formatting of the two handlers that declare an
`except requests.exceptions.HTTPError` branch before the generic one
(servers/servicedesk.py:133-144 and 223-234): an HTTP error with a
response is formatted `HTTP Error {status}: {body}` with the body
pretty-printed when it parses as JSON and raw otherwise; an HTTP error
without a response is `HTTP Error: {e}`; anything else `Error: {e}`. -/
def formatHttpAware (e : PyExc) : String :=
  match e with
  | .httpError _ (some resp) =>
    match jsonLoads resp.text with
    | .ok j => "HTTP Error " ++ toString resp.status_code ++ ": " ++ dumps2 j
    | .error _ => "HTTP Error " ++ toString resp.status_code ++ ": " ++ resp.text
  | .httpError m none => "HTTP Error: " ++ m
  | e2 => "Error: " ++ e2.pystr

/-- Embeds the handler `servicedesk_get_request_types`
(servers/servicedesk.py:38-58): resolve the service desk id (returning
the descriptive error string when neither source is truthy), construct
the fetcher, delegate, and either dump the result at indent 2 or format
the caught exception as `Error: {e}`. -/
def servicedesk_get_request_types (cfg : JiraConfig) (service_desk_id : PyStrV)
    (remote : Remote) : String × List HttpRequest :=
  let sdid := resolveServiceDeskId cfg service_desk_id
  if pyTruthy sdid then
    match ServiceDeskFetcher.init cfg with
    | .error e => ("Error: " ++ e.pystr, [])
    | .ok f =>
      let req := f.get_request_types_req (pyStrVal sdid)
      (match ServiceDeskFetcher.get_request_types_res req (remote req) with
       | .ok j => dumps2 j
       | .error e => "Error: " ++ e.pystr, [req])
  else (errNoServiceDesk, [])

/-- Embeds the handler `servicedesk_get_organizations`
(servers/servicedesk.py:61-81).  After resolving the service desk id
and constructing the fetcher, line 77 calls
`servicedesk.get_organizations(service_desk_id)`, but the
`ServiceDeskFetcher` class defines only `get_organisations`
(servicedesk/__init__.py:81), so in Python the attribute lookup raises
`AttributeError` before any HTTP call, and the handler's generic
`except Exception` clause turns it into an `Error: ...` string (the
actual Python message additionally wraps the two names in single
quotes). -/
def servicedesk_get_organizations (cfg : JiraConfig) (service_desk_id : PyStrV)
    (_remote : Remote) : String × List HttpRequest :=
  let sdid := resolveServiceDeskId cfg service_desk_id
  if pyTruthy sdid then
    match ServiceDeskFetcher.init cfg with
    | .error e => ("Error: " ++ e.pystr, [])
    | .ok _ =>
      ("Error: " ++ (PyExc.attributeError
        "ServiceDeskFetcher object has no attribute get_organizations").pystr, [])
  else (errNoServiceDesk, [])

/-- Embeds the handler `servicedesk_get_organization_users`
(servers/servicedesk.py:84-100): no service-desk defaulting, one GET
with the given pagination bounds. -/
def servicedesk_get_organization_users (cfg : JiraConfig) (organization_id : String)
    (start limit : Int) (remote : Remote) : String × List HttpRequest :=
  match ServiceDeskFetcher.init cfg with
  | .error e => ("Error: " ++ e.pystr, [])
  | .ok f =>
    let req := f.get_organization_users_req organization_id start limit
    (match makeRequestResult req (remote req) with
     | .ok j => dumps2 j
     | .error e => "Error: " ++ e.pystr, [req])

/-- Invocation of `servicedesk_get_organization_users` with `start` and
`limit` not supplied, which Python fills with the declared defaults. -/
def servicedesk_get_organization_users_defaulted (cfg : JiraConfig)
    (organization_id : String) (remote : Remote) : String × List HttpRequest :=
  servicedesk_get_organization_users cfg organization_id
    organization_users_default_start organization_users_default_limit remote

/-- Worker for the comma split: accumulate the current entry until a
comma or the end of input. -/
def splitCommaAux : List Char → List Char → List String
  | [], acc => [String.mk acc.reverse]
  | c :: cs, acc =>
    if c = ',' then String.mk acc.reverse :: splitCommaAux cs []
    else splitCommaAux cs (c :: acc)

/-- Python `s.split(',')`: every comma separates, so an empty input
gives one empty entry and a trailing comma a trailing empty entry. -/
def pySplitComma (s : String) : List String := splitCommaAux s.data []

/-- The username parsing of `servicedesk_add_users_to_organization`
(servers/servicedesk.py:125): comma-split, each entry stripped, falsy
(empty after stripping) entries dropped. -/
def parseUsernames (usernames : String) : List String :=
  ((pySplitComma usernames).map pyStrip).filter (fun u => !u.isEmpty)

/-- Embeds the handler `servicedesk_add_users_to_organization`
(servers/servicedesk.py:103-144): construct the fetcher, parse the
comma-separated usernames, return `Error: No valid usernames provided`
when nothing survives the filter, otherwise POST and format failures
through the HTTP-aware except chain. -/
def servicedesk_add_users_to_organization (cfg : JiraConfig) (organization_id : String)
    (usernames : String) (remote : Remote) : String × List HttpRequest :=
  match ServiceDeskFetcher.init cfg with
  | .error e => ("Error: " ++ e.pystr, [])
  | .ok f =>
    let username_list := parseUsernames usernames
    if username_list.isEmpty then ("Error: No valid usernames provided", [])
    else
      let req := f.add_users_to_organization_req organization_id username_list
      (match makeRequestResult req (remote req) with
       | .ok j => dumps2 j
       | .error e => formatHttpAware e, [req])

/-- Embeds the handler `servicedesk_get_request_type_fields`
(servers/servicedesk.py:147-168): service-desk defaulting, one GET,
generic error formatting. -/
def servicedesk_get_request_type_fields (cfg : JiraConfig) (request_type_id : String)
    (service_desk_id : PyStrV) (remote : Remote) : String × List HttpRequest :=
  let sdid := resolveServiceDeskId cfg service_desk_id
  if pyTruthy sdid then
    match ServiceDeskFetcher.init cfg with
    | .error e => ("Error: " ++ e.pystr, [])
    | .ok f =>
      let req := f.get_request_type_fields_req (pyStrVal sdid) request_type_id
      (match ServiceDeskFetcher.get_request_type_fields_res req (remote req) with
       | .ok j => dumps2 j
       | .error e => "Error: " ++ e.pystr, [req])
  else (errNoServiceDesk, [])

/-- Embeds the handler `servicedesk_create_customer_request`
(servers/servicedesk.py:171-234): service-desk defaulting first, then
fetcher construction; a truthy `request_field_values` string is JSON
parsed, a decode failure returning
`Error parsing request_field_values JSON: {e}` before any outbound
call; the parsed values feed `create_customer_request` and failures go
through the HTTP-aware except chain.  A parsed value that is not a JSON
object cannot be consumed as a mapping by `dict.update` downstream and
is modelled as the resulting `TypeError` (a case no claim exercises). -/
def servicedesk_create_customer_request (cfg : JiraConfig) (request_type_id : String)
    (summary description : String) (service_desk_id : PyStrV)
    (request_field_values : PyStrV) (remote : Remote) : String × List HttpRequest :=
  let sdid := resolveServiceDeskId cfg service_desk_id
  if pyTruthy sdid then
    match ServiceDeskFetcher.init cfg with
    | .error e => ("Error: " ++ e.pystr, [])
    | .ok f =>
      match
        (if pyTruthy request_field_values then
          match jsonLoads (pyStrVal request_field_values) with
          | .error m => .error m
          | .ok j => .ok (some j)
        else .ok none : Except String (Option Json)) with
      | .error m => ("Error parsing request_field_values JSON: " ++ m, [])
      | .ok parsed =>
        match
          (match parsed with
           | none => .ok none
           | some (.obj kvs) => .ok (some kvs)
           | some _ => .error (PyExc.typeError "update sequence element is not a mapping")
           : Except PyExc (Option (List (String × Json)))) with
        | .error e => ("Error: " ++ e.pystr, [])
        | .ok kvs =>
          let req := f.create_customer_request_req (.ofStr (pyStrVal sdid))
            (.ofStr request_type_id) summary description kvs
          (match makeRequestResult req (remote req) with
           | .ok j => dumps2 j
           | .error e => formatHttpAware e, [req])
  else (errNoServiceDesk, [])

/-- Embeds the handler `servicedesk_update_issue`
(servers/servicedesk.py:237-271): construct the fetcher, JSON-parse
`custom_fields` (a decode failure returning
`Error parsing custom_fields JSON: {e}` before any outbound call),
splat the parsed mapping into `update_request` (a non-mapping raising
`TypeError` into the generic except clause), and on success return
`Issue {key} updated successfully`. -/
def servicedesk_update_issue (cfg : JiraConfig) (issue_key : String)
    (custom_fields : String) (remote : Remote) : String × List HttpRequest :=
  match ServiceDeskFetcher.init cfg with
  | .error e => ("Error: " ++ e.pystr, [])
  | .ok f =>
    match jsonLoads custom_fields with
    | .error m => ("Error parsing custom_fields JSON: " ++ m, [])
    | .ok (.obj fs) =>
      let req := f.update_request_req issue_key fs
      (match ServiceDeskFetcher.update_request_res req (remote req) with
       | .ok _ => "Issue " ++ issue_key ++ " updated successfully"
       | .error e => "Error: " ++ e.pystr, [req])
    | .ok _ =>
      ("Error: " ++ (PyExc.typeError "argument after must be a mapping").pystr, [])

theorem lookupField_upsert (d : List (String × Json)) (k q : String) (v : Json) :
    lookupField (upsert d k v) q = if k = q then some v else lookupField d q := by
  induction d with
  | nil => simp [upsert, lookupField]
  | cons p rest ih =>
    obtain ⟨k0, v0⟩ := p
    simp only [upsert]
    by_cases h1 : k0 = k
    · subst h1
      simp only [if_pos rfl, lookupField]
      by_cases h2 : k0 = q
      · simp [h2]
      · simp [h2]
    · simp only [if_neg h1, lookupField, ih]
      by_cases h2 : k0 = q
      · have h3 : ¬ k = q := fun hh => h1 (h2.trans hh.symm)
        simp [h2, h3]
      · simp [h2]

theorem lookupField_pyDictUpdate (d kvs : List (String × Json)) (q : String) :
    lookupField (pyDictUpdate d kvs) q =
      match lookupLast kvs q with
      | some w => some w
      | none => lookupField d q := by
  induction kvs generalizing d with
  | nil => simp [pyDictUpdate, lookupLast]
  | cons p rest ih =>
    obtain ⟨k, v⟩ := p
    rw [pyDictUpdate, ih]
    cases h : lookupLast rest q with
    | some w => simp [lookupLast, h]
    | none => by_cases h2 : k = q <;> simp [lookupLast, h, h2, lookupField_upsert]

/-- C7: a configuration exposing neither the (username, api_token)
attribute pair nor a personal_token attribute makes client construction
fail with the ConfigurationError (realized as the `ValueError` of
`ServiceDeskFetcher.__init__`); whenever at least one of the two auth
shapes is present, construction succeeds and selects HTTP Basic auth. -/
theorem C7_construction_requires_auth (cfg : JiraConfig) :
    (((cfg.username.isSome ∧ cfg.api_token.isSome) ∨ cfg.personal_token.isSome) →
      ∃ f, ServiceDeskFetcher.init cfg = .ok f ∧ ∃ u p, f.auth = .basic u p) ∧
    (¬ ((cfg.username.isSome ∧ cfg.api_token.isSome) ∨ cfg.personal_token.isSome) →
      ServiceDeskFetcher.init cfg = .error configurationError) := by
  obtain ⟨url, un, tok, pt, d⟩ := cfg
  cases un <;> cases tok <;> cases pt <;>
    simp [ServiceDeskFetcher.init]

theorem C7_construction_requires_auth_witness :
    ServiceDeskFetcher.init ⟨"https://x", none, none, none, none⟩ =
      .error configurationError ∧
    ∃ f, ServiceDeskFetcher.init ⟨"https://x", some (some "u"), some (some "t"), none, none⟩ =
      .ok f ∧ ∃ u p, f.auth = .basic u p :=
  ⟨(C7_construction_requires_auth ⟨"https://x", none, none, none, none⟩).2 (by decide),
   (C7_construction_requires_auth
     ⟨"https://x", some (some "u"), some (some "t"), none, none⟩).1 (by decide)⟩

/-- C10: auth selection is decided purely by attribute presence, with
the (username, api_token) pair taking precedence even when the attribute
values are Python `None` or empty strings; the personal_token is used
only when at least one of those two attributes is absent. -/
theorem C10_auth_attribute_precedence (url : String) (u t : PyStrV)
    (pt : Option PyStrV) (d : PyStrV) :
    ServiceDeskFetcher.init ⟨url, some u, some t, pt, d⟩ =
      .ok ⟨rstripSlash url, .basic u t⟩ ∧
    (∀ (un tok : Option PyStrV) (p : PyStrV), (un.isNone ∨ tok.isNone) →
      ServiceDeskFetcher.init ⟨url, un, tok, some p, d⟩ =
        .ok ⟨rstripSlash url, .basic (some "") p⟩) := by
  constructor
  · rfl
  · intro un tok p h
    cases un <;> cases tok <;> simp_all [ServiceDeskFetcher.init]

theorem C10_auth_attribute_precedence_witness :
    ServiceDeskFetcher.init ⟨"https://x/", some none, some none, some (some "p"), none⟩ =
      .ok ⟨"https://x", .basic none none⟩ ∧
    ServiceDeskFetcher.init ⟨"https://x", none, some (some "t"), some (some "p"), none⟩ =
      .ok ⟨"https://x", .basic (some "") (some "p")⟩ :=
  ⟨(C10_auth_attribute_precedence "https://x/" none none (some (some "p")) none).1,
   (C10_auth_attribute_precedence "https://x" none none none none).2
     none (some (some "t")) (some "p") (Or.inl rfl)⟩

/-- C3: every Service-Desk-scoped handler invoked with no
service_desk_id argument and a configuration whose default service desk
id is falsy returns exactly the literal error string and issues no
outbound call. -/
theorem C3_missing_service_desk_id (cfg : JiraConfig)
    (h : pyTruthy cfg.default_service_desk_id = false) (remote : Remote)
    (request_type_id summary description : String) (request_field_values : PyStrV) :
    servicedesk_get_request_types cfg none remote = (errNoServiceDesk, []) ∧
    servicedesk_get_organizations cfg none remote = (errNoServiceDesk, []) ∧
    servicedesk_get_request_type_fields cfg request_type_id none remote =
      (errNoServiceDesk, []) ∧
    servicedesk_create_customer_request cfg request_type_id summary description none
      request_field_values remote = (errNoServiceDesk, []) := by
  refine ⟨?_, ?_, ?_, ?_⟩ <;>
  · simp only [servicedesk_get_request_types, servicedesk_get_organizations,
      servicedesk_get_request_type_fields, servicedesk_create_customer_request]
    rw [show resolveServiceDeskId cfg none = cfg.default_service_desk_id from rfl]
    simp [h]

theorem C3_missing_service_desk_id_witness :
    servicedesk_get_request_types ⟨"https://x", some (some "u"), some (some "t"), none, none⟩
      none (fun _ => ⟨200, "OK", "\x7b\x7d"⟩) = (errNoServiceDesk, []) ∧
    servicedesk_get_organizations ⟨"https://x", some (some "u"), some (some "t"), none, none⟩
      none (fun _ => ⟨200, "OK", "\x7b\x7d"⟩) = (errNoServiceDesk, []) ∧
    servicedesk_get_request_type_fields
      ⟨"https://x", some (some "u"), some (some "t"), none, none⟩ "144"
      none (fun _ => ⟨200, "OK", "\x7b\x7d"⟩) = (errNoServiceDesk, []) ∧
    servicedesk_create_customer_request
      ⟨"https://x", some (some "u"), some (some "t"), none, none⟩ "144" "s" "d" none
      none (fun _ => ⟨200, "OK", "\x7b\x7d"⟩) = (errNoServiceDesk, []) :=
  C3_missing_service_desk_id ⟨"https://x", some (some "u"), some (some "t"), none, none⟩
    rfl (fun _ => ⟨200, "OK", "\x7b\x7d"⟩) "144" "s" "d" none

/-- C9: a list-organization-users invocation with start and limit not
supplied issues exactly one outbound GET to
`organization/{orgId}/user` carrying the query parameters start=0 and
limit=50. -/
theorem C9_default_pagination (url : String) (u t : PyStrV) (pt : Option PyStrV)
    (d : PyStrV) (organization_id : String) (remote : Remote) :
    (servicedesk_get_organization_users_defaulted
        ⟨url, some u, some t, pt, d⟩ organization_id remote).2 =
      [⟨"GET",
        rstripSlash url ++ "/rest/servicedeskapi/" ++
          ("organization/" ++ organization_id ++ "/user"),
        [("start", 0), ("limit", 50)], none, .basic u t, sdHeaders⟩] := by
  rfl

/-- C4: the outbound body of every create-customer-request call is a
POST to the `request` endpoint whose `serviceDeskId` and
`requestTypeId` are JSON strings (the Python `str()` coercion applying
also to integer-typed inputs), and whose `requestFieldValues` is the
summary/description mapping updated with the caller-supplied field map
under last-write-wins semantics. -/
theorem C4_create_request_body (f : ServiceDeskFetcher)
    (service_desk_id request_type_id : PyIdVal) (summary description : String)
    (kvs : List (String × Json)) :
    (f.create_customer_request_req service_desk_id request_type_id summary description
        (some kvs)).method = "POST" ∧
    (f.create_customer_request_req service_desk_id request_type_id summary description
        (some kvs)).url = f.base_url ++ "/rest/servicedeskapi/" ++ "request" ∧
    (f.create_customer_request_req service_desk_id request_type_id summary description
        (some kvs)).body =
      some (.obj [("serviceDeskId", .str service_desk_id.pystr),
        ("requestTypeId", .str request_type_id.pystr),
        ("requestFieldValues", .obj (pyDictUpdate
          [("summary", .str summary), ("description", .str description)] kvs))]) ∧
    (∀ q, lookupField (pyDictUpdate
        [("summary", .str summary), ("description", .str description)] kvs) q =
      match lookupLast kvs q with
      | some w => some w
      | none =>
        lookupField [("summary", .str summary), ("description", .str description)] q) ∧
    (PyIdVal.ofInt 5).pystr = "5" ∧ (PyIdVal.ofInt 144).pystr = "144" :=
  ⟨rfl, rfl, rfl, fun q => lookupField_pyDictUpdate _ kvs q, rfl, rfl⟩

/-- C6: the usernames string is comma-split with entries stripped and
empty entries dropped (so `a, ,b,` parses to `a`, `b` and `""` or
` , ` parse to nothing), and a handler invocation whose parsed list is
empty returns exactly `Error: No valid usernames provided` without
issuing an outbound call. -/
theorem C6_usernames_split_filter (url : String) (u t : PyStrV) (pt : Option PyStrV)
    (d : PyStrV) (organization_id s : String) (h : parseUsernames s = [])
    (remote : Remote) :
    parseUsernames "a, ,b," = ["a", "b"] ∧
    parseUsernames "" = [] ∧
    parseUsernames " , " = [] ∧
    servicedesk_add_users_to_organization ⟨url, some u, some t, pt, d⟩
      organization_id s remote = ("Error: No valid usernames provided", []) := by
  refine ⟨rfl, rfl, rfl, ?_⟩
  simp [servicedesk_add_users_to_organization, ServiceDeskFetcher.init, h]

theorem C6_usernames_split_filter_witness :
    parseUsernames "a, ,b," = ["a", "b"] ∧
    parseUsernames "" = [] ∧
    parseUsernames " , " = [] ∧
    servicedesk_add_users_to_organization
      ⟨"https://x", some (some "u"), some (some "t"), none, none⟩
      "42" " , " (fun _ => ⟨200, "OK", "\x7b\x7d"⟩) =
        ("Error: No valid usernames provided", []) :=
  C6_usernames_split_filter "https://x" (some "u") (some "t") none none "42" " , "
    rfl (fun _ => ⟨200, "OK", "\x7b\x7d"⟩)

/-- C5 (amended): any non-empty request_field_values string that is not
valid JSON makes the create handler return
`Error parsing request_field_values JSON: {detail}` with no outbound
call, and any custom_fields string that is not valid JSON makes the
update handler return `Error parsing custom_fields JSON: {detail}` with
no outbound call; the parse exception is not propagated in either case.
The non-empty restriction on request_field_values is forced by the
truthiness guard `if request_field_values:` in the source, which skips
parsing for the empty string. -/
theorem C5_parse_error_strings (url : String) (u t : PyStrV) (pt : Option PyStrV)
    (d : PyStrV) (request_type_id summary description sdid : String)
    (hsd : sdid.isEmpty = false) (rfv : String) (hrfv : rfv.isEmpty = false)
    (m : String) (hm : jsonLoads rfv = .error m)
    (issue_key cf m2 : String) (hm2 : jsonLoads cf = .error m2)
    (remote remote2 : Remote) :
    servicedesk_create_customer_request ⟨url, some u, some t, pt, d⟩ request_type_id
        summary description (some sdid) (some rfv) remote =
      ("Error parsing request_field_values JSON: " ++ m, []) ∧
    servicedesk_update_issue ⟨url, some u, some t, pt, d⟩ issue_key cf remote2 =
      ("Error parsing custom_fields JSON: " ++ m2, []) := by
  constructor
  · simp [servicedesk_create_customer_request, resolveServiceDeskId, pyTruthy,
      pyStrVal, ServiceDeskFetcher.init, hsd, hrfv, hm]
  · simp [servicedesk_update_issue, ServiceDeskFetcher.init, hm2]

theorem C5_parse_error_strings_witness :
    servicedesk_create_customer_request
        ⟨"https://x", some (some "u"), some (some "t"), none, none⟩ "144"
        "s" "d" (some "1") (some "not json") (fun _ => ⟨200, "OK", "\x7b\x7d"⟩) =
      ("Error parsing request_field_values JSON: " ++ "Expecting value", []) ∧
    servicedesk_update_issue ⟨"https://x", some (some "u"), some (some "t"), none, none⟩
        "CS-1" "oops" (fun _ => ⟨200, "OK", "\x7b\x7d"⟩) =
      ("Error parsing custom_fields JSON: " ++ "Expecting value", []) :=
  C5_parse_error_strings "https://x" (some "u") (some "t") none none "144" "s" "d"
    "1" rfl "not json" rfl "Expecting value" rfl "CS-1" "oops" "Expecting value" rfl
    (fun _ => ⟨200, "OK", "\x7b\x7d"⟩) (fun _ => ⟨200, "OK", "\x7b\x7d"⟩)

/-- C5 (counterexample): the empty string is not valid JSON, yet the
create handler invoked with request_field_values equal to the empty
string does not return a parse-error string and does issue an outbound
call (here reaching the remote, whose 400 answer is formatted by the
HTTP except branch): the truthiness guard in the source skips JSON
parsing for every falsy string. -/
theorem C5_counterexample_empty_string :
    jsonLoads "" = .error "Expecting value" ∧
    (servicedesk_create_customer_request
        ⟨"https://x", some (some "u"), some (some "t"), none, none⟩
        "144" "s" "d" (some "1") (some "")
        (fun _ => ⟨400, "Bad Request", "nope"⟩)).1 = "HTTP Error 400: nope" ∧
    (servicedesk_create_customer_request
        ⟨"https://x", some (some "u"), some (some "t"), none, none⟩
        "144" "s" "d" (some "1") (some "")
        (fun _ => ⟨400, "Bad Request", "nope"⟩)).2.length = 1 :=
  ⟨rfl, rfl, rfl⟩

/-- C2: contrary to the claim, the list-organizations handler never
issues GET `servicedesk/{sdId}/organization`: its body calls the method
name `get_organizations`, which `ServiceDeskFetcher` does not define
(the client method is spelled `get_organisations`), so the invocation
raises `AttributeError`, caught by the generic except clause — the
handler returns an `Error: ...` string and issues no outbound call,
while the differently-spelled client method does construct exactly the
claimed GET and unwrap of the `values` list. -/
theorem C2_organizations_attribute_error :
    servicedesk_get_organizations
        ⟨"https://x", some (some "u"), some (some "t"), none, none⟩ (some "1")
        (fun _ => ⟨200, "OK", "\x7b\"values\": []\x7d"⟩) =
      ("Error: ServiceDeskFetcher object has no attribute get_organizations", []) ∧
    ServiceDeskFetcher.get_organisations_req ⟨"https://x", .basic (some "u") (some "t")⟩ "1" =
      ⟨"GET", "https://x" ++ "/rest/servicedeskapi/" ++ ("servicedesk/" ++ "1" ++ "/organization"),
        [], none, .basic (some "u") (some "t"), sdHeaders⟩ ∧
    ServiceDeskFetcher.get_organisations_res
        (ServiceDeskFetcher.get_organisations_req
          ⟨"https://x", .basic (some "u") (some "t")⟩ "1")
        ⟨200, "OK", "\x7b\"values\": [\x7b\"id\": \"9\"\x7d]\x7d"⟩ =
      .ok (.arr [.obj [("id", .str "9")]]) :=
  ⟨rfl, rfl, rfl⟩
